import Mathlib

/-!
Shallow embedding of `pytest_inmanta/plugin.py` (the `Project` test façade of
the pytest-inmanta plugin) and proofs about it.

Python dicts are modelled as association lists in insertion order (updating an
existing key keeps its position); external collaborators (the inmanta handler
framework, the compiler, json encoding) are modelled as an explicit `Env`
record of functions; Python exceptions become `Except PyError`; the calls the
code makes on the agent cache are recorded in an explicit event trace.
-/

namespace PytestInmanta

/-- Python dict lookup `d[k]` / `d.get(k)` over an insertion-ordered assoc list. -/
def lookupKey {α : Type} (l : List (String × α)) (k : String) : Option α :=
  match l with
  | [] => none
  | kv :: rest => if kv.1 = k then some kv.2 else lookupKey rest k

/-- Python `k in d`. -/
def containsKey {α : Type} (l : List (String × α)) (k : String) : Bool :=
  match l with
  | [] => false
  | kv :: rest => kv.1 == k || containsKey rest k

/-- Python `d[k] = v`: update in place if the key exists, else append. -/
def setKey {α : Type} (l : List (String × α)) (k : String) (v : α) : List (String × α) :=
  match l with
  | [] => [(k, v)]
  | kv :: rest => if kv.1 = k then (k, v) :: rest else kv :: setKey rest k v

/-- Attribute values of compiled resources; opaque to the façade, only compared
for equality (plugin.py line 255 `getattr(resource, arg) != value`). -/
abbrev Value := Nat

/-- `inmanta.const.ResourceState` (external enum); the façade uses
`deployed` (default expectation) and `dry` (dry-run sentinel). -/
inductive ResourceState
  | deployed
  | dry
  | failed
  | skipped
  | unavailable
  deriving DecidableEq, Repr

/-- A resource id; the façade only reads `resource.id.version`
(plugin.py line 226). -/
structure ResourceId where
  version : Nat
  deriving DecidableEq, Repr

/-- A compiled resource: opaque instance; the façade uses `is_type`,
`hasattr`/`getattr` on attributes, and `id` (plugin.py lines 250-267). -/
structure Resource where
  id : ResourceId
  rtype : String
  attrs : List (String × Value)
  deriving DecidableEq, Repr

/-- `resource.is_type(resource_type)` (external method, plugin.py line 261):
type-membership test, modelled as matching the resource type name. -/
def Resource.is_type (r : Resource) (t : String) : Bool :=
  r.rtype = t

/-- `MockProcess` (plugin.py lines 153-159): holds an event-loop handle. -/
structure MockProcess where
  io_loop_handle : Nat
  deriving DecidableEq, Repr

/-- `MockAgent` (plugin.py lines 162-168): a connection uri plus a process. -/
structure MockAgent where
  uri : String
  process : MockProcess
  deriving DecidableEq, Repr

/-- A handler provider as returned by `handler.Commander.get_provider`
(external); `agent` records the MockAgent it was resolved against. -/
structure ProviderCore where
  pid : Nat
  deriving DecidableEq, Repr

/-- The provider after `get_handler` wired it: carries the agent whose uri
decides local vs root-over-ssh execution (plugin.py lines 221-224, 228). -/
structure Provider where
  core : ProviderCore
  agent : MockAgent
  deriving DecidableEq, Repr

/-- `handler.HandlerContext` after handler execution: status, logs, changes. -/
structure HandlerContext where
  status : ResourceState
  logs : List String
  changes : List (String × String)
  deriving DecidableEq, Repr

/-- Python exceptions raised by the embedded code paths. -/
inductive PyError
  | exception (msg : String)
  | assertionError (msg : String)
  | typeError (msg : String)
  deriving DecidableEq, Repr

/-- Calls made on the `cache.AgentCache` and the handler during
`get_handler`/`deploy`; `execute` records the agent uri and the `dry_run`
flag the handler was executed with. -/
inductive Event
  | openVersion (v : Nat)
  | closeVersion (v : Nat)
  | execute (uri : String) (dry : Bool)
  deriving DecidableEq, Repr

/-- Result of `h.execute(ctx, resource, dry_run)`: the final context plus the
uploads the handler performed through the wired `p.upload_file` callback
(plugin.py line 232, which calls `add_blob` with its default overwrite). -/
structure ExecResult where
  ctx : HandlerContext
  uploads : List (String × String)

/-- External collaborators: provider resolution
(`handler.Commander.get_provider`, may raise), handler execution
(`h.execute`), and `json_encode` of the context logs (`finalize_context`,
may raise on unserializable logs). -/
structure Env where
  get_provider : MockAgent → Resource → Except PyError ProviderCore
  execute : Provider → Resource → Bool → ExecResult
  finalize : HandlerContext → Except PyError Unit

/-- Opaque token for a compiled type mapping (`self.types`). -/
structure Types where
  tid : Nat
  deriving DecidableEq, Repr

/-- Opaque token for the exporter handle (`self._exporter`). -/
structure Exporter where
  eid : Nat
  deriving DecidableEq, Repr

/-- Opaque token for the pytest `capsys` fixture value. -/
structure Capsys where
  cid : Nat
  deriving DecidableEq, Repr

/-- Opaque token for a plugin function object (`types.FunctionType` value). -/
structure PluginFunc where
  fid : Nat
  deriving DecidableEq, Repr

/-- The plugins directory of the module under test, as `_load_plugins` probes
it: whether the directory exists, whether it holds an `__init__.py`, and the
`.py` files in `glob.glob` order with their top-level function definitions in
module-dict order. -/
structure PyFile where
  fname : String
  defs : List (String × PluginFunc)
  deriving DecidableEq, Repr

structure PluginDirState where
  dir_exists : Bool
  has_init_py : Bool
  py_files : List PyFile
  deriving DecidableEq, Repr

/-- The mutable state of a `Project` (plugin.py lines 177-199).
`resources` keeps the dict values in iteration order. `_plugins` is
`Option` because `_load_plugins` returns `None` (bare `return`) when the
plugins directory does not exist (plugin.py line 397). -/
structure Project where
  test_project_dir : String
  stdout_cap : Option String
  stderr_cap : Option String
  types : Option Types
  version : Option Nat
  resources : List Resource
  exporter : Option Exporter
  blobs : List (String × String)
  facts : List (String × List (String × Value))
  plugins : Option (List (String × PluginFunc))
  capsys : Option Capsys
  deriving DecidableEq, Repr

/-- `Project.init` (plugin.py lines 191-199): stores capsys and resets the
compile/deploy state; `_plugins`, `_stdout`, `_stderr` and the project dir
are left untouched, and `config.Config.load_config()` has no modelled state. -/
def Project.init (p : Project) (cs : Capsys) : Project :=
  { p with
    capsys := some cs
    types := none
    version := none
    resources := []
    exporter := none
    blobs := []
    facts := [] }

/-- `Project.add_blob` (plugin.py lines 201-207). The Python signature is
`add_blob(self, key, content, allow_overwrite=True)`. -/
def Project.add_blob (p : Project) (key content : String) (allow_overwrite : Bool) :
    Except PyError Project :=
  if containsKey p.blobs key && !allow_overwrite then
    .error (.exception ("Key " ++ key ++ " already stored in blobs"))
  else
    .ok { p with blobs := setKey p.blobs key content }

/-- The two-argument call `add_blob(key, content)`, i.e. with the default
`allow_overwrite=True` from the Python signature. -/
def Project.add_blob_default (p : Project) (key content : String) : Except PyError Project :=
  Project.add_blob p key content true

/-- `Project.stat_blob` (plugin.py lines 209-210). -/
def Project.stat_blob (p : Project) (key : String) : Bool :=
  containsKey p.blobs key

/-- `Project.get_blob` (plugin.py lines 212-213); `None` when absent models
the `KeyError` path as a missing value. -/
def Project.get_blob (p : Project) (key : String) : Option String :=
  lookupKey p.blobs key

/-- `Project.add_fact` (plugin.py lines 215-216): `self._facts[resource_id][name] = value`
on a `defaultdict(dict)`. -/
def Project.add_fact (p : Project) (resource_id name : String) (value : Value) : Project :=
  let inner := (lookupKey p.facts resource_id).getD []
  { p with facts := setKey p.facts resource_id (setKey inner name value) }

/-- The MockAgent built in `get_handler` (plugin.py lines 221-224):
`MockAgent("ssh://root@localhost")` when `run_as_root` else
`MockAgent("local:")`. -/
def mockAgentFor (run_as_root : Bool) : MockAgent :=
  if run_as_root then ⟨"ssh://root@localhost", ⟨0⟩⟩ else ⟨"local:", ⟨0⟩⟩

/-- `Project.get_handler` (plugin.py lines 218-239). Opens a cache version,
builds the MockAgent from `run_as_root`, resolves and wires the provider
inside `try`. Both branches of the `try` leave the function (the `return p`
on success, `raise e` in `except`), so the `c.close_version(...)` statement
on line 239, placed after the `try` block, is dead code: no `closeVersion`
event is ever emitted. Returns the result with the trace of cache/handler
events. -/
def Project.get_handler (env : Env) (resource : Resource) (run_as_root : Bool) :
    Except PyError Provider × List Event :=
  match env.get_provider (mockAgentFor run_as_root) resource with
  | .ok core => (.ok ⟨core, mockAgentFor run_as_root⟩, [Event.openVersion resource.id.version])
  | .error e => (.error e, [Event.openVersion resource.id.version])

/-- The blob-store effect of the uploads a handler performed through the
wired `p.upload_file` callback (plugin.py line 232): each is an
`add_blob(x, y)` call with the default overwrite permission, i.e. a plain
dict write. -/
def applyUploads (p : Project) (ups : List (String × String)) : Project :=
  { p with blobs := ups.foldl (fun bs kv => setKey bs kv.1 kv.2) p.blobs }

/-- `Project.deploy` (plugin.py lines 271-282). The Python signature is
`deploy(self, resource, dry_run=False, run_as_root=False)`. Resolves the
handler, executes it on a fresh context with the given `dry_run` flag,
applies the uploads the handler made, runs `finalize_context` and returns
the context. The returned triple is (result, project state after the call,
event trace). -/
def Project.deploy (env : Env) (p : Project) (resource : Resource)
    (dry_run : Bool) (run_as_root : Bool) :
    Except PyError HandlerContext × Project × List Event :=
  match Project.get_handler env resource run_as_root with
  | (.error e, trace) => (.error e, p, trace)
  | (.ok h, trace) =>
    match env.finalize (env.execute h resource dry_run).ctx with
    | .error e =>
      (.error e, applyUploads p (env.execute h resource dry_run).uploads,
        trace ++ [Event.execute h.agent.uri dry_run])
    | .ok _ =>
      (.ok (env.execute h resource dry_run).ctx,
        applyUploads p (env.execute h resource dry_run).uploads,
        trace ++ [Event.execute h.agent.uri dry_run])

/-- `Project.dryrun` (plugin.py lines 284-285):
`return self.deploy(resource, True, run_as_root)`. -/
def Project.dryrun (env : Env) (p : Project) (resource : Resource) (run_as_root : Bool) :
    Except PyError HandlerContext × Project × List Event :=
  Project.deploy env p resource true run_as_root

/-- `apply_filter` inside `Project.get_resource` (plugin.py lines 250-258):
every filter attribute must exist on the resource (`hasattr`) and equal the
filter value (`getattr`). -/
def apply_filter (filter_args : List (String × Value)) (resource : Resource) : Bool :=
  filter_args.all (fun av =>
    match lookupKey resource.attrs av.1 with
    | none => false
    | some v => v == av.2)

/-- The loop of `Project.get_resource` over `self.resources.values()`
(plugin.py lines 260-269): skip resources of the wrong type or failing the
filter, return the first survivor, `None` when the loop ends. -/
def get_resource_loop (resource_type : String) (filter_args : List (String × Value)) :
    List Resource → Option Resource
  | [] => none
  | r :: rest =>
    if !(r.is_type resource_type) then get_resource_loop resource_type filter_args rest
    else if !(apply_filter filter_args r) then get_resource_loop resource_type filter_args rest
    else some r

/-- `Project.get_resource` (plugin.py lines 245-269). -/
def Project.get_resource (p : Project) (resource_type : String)
    (filter_args : List (String × Value)) : Option Resource :=
  get_resource_loop resource_type filter_args p.resources

/-- `Project.deploy_resource` (plugin.py lines 287-303). The Python signature
is `deploy_resource(self, resource_type, status=const.ResourceState.deployed,
run_as_root=False, **filter_args)`. Line 291 reads
`ctx = self.deploy(res, run_as_root)`: `run_as_root` is passed POSITIONALLY
into the `dry_run` parameter of `deploy`, and `deploy`'s own `run_as_root`
keeps its default `False`. On a missing resource the assert on line 289
raises before anything else happens. On a status mismatch diagnostics are
printed (not modelled) and the assert on line 301 raises. -/
def Project.deploy_resource (env : Env) (p : Project) (resource_type : String)
    (status : ResourceState) (run_as_root : Bool) (filter_args : List (String × Value)) :
    Except PyError Resource × Project × List Event :=
  match Project.get_resource p resource_type filter_args with
  | none => (.error (.assertionError "No resource found of given type and filter args"), p, [])
  | some res =>
    match Project.deploy env p res run_as_root false with
    | (.error e, p2, trace) => (.error e, p2, trace)
    | (.ok ctx, p2, trace) =>
      if ctx.status = status then
        match env.finalize ctx with
        | .error e => (.error e, p2, trace)
        | .ok _ => (.ok res, p2, trace)
      else (.error (.assertionError "ctx.status == status"), p2, trace)

/-- `Project.dryrun_resource` (plugin.py lines 305-312). Has the same
`status=const.ResourceState.deployed` default parameter as
`deploy_resource`, but never uses it: line 311 asserts
`ctx.status == const.ResourceState.dry`. Returns `ctx.changes`. -/
def Project.dryrun_resource (env : Env) (p : Project) (resource_type : String)
    (status : ResourceState) (run_as_root : Bool) (filter_args : List (String × Value)) :
    Except PyError (List (String × String)) × Project × List Event :=
  match Project.get_resource p resource_type filter_args with
  | none => (.error (.assertionError "No resource found of given type and filter args"), p, [])
  | some res =>
    match Project.dryrun env p res run_as_root with
    | (.error e, p2, trace) => (.error e, p2, trace)
    | (.ok ctx, p2, trace) =>
      if ctx.status = ResourceState.dry then (.ok ctx.changes, p2, trace)
      else (.error (.assertionError "ctx.status == const.ResourceState.dry"), p2, trace)

/-- One pass of the registry build in `_load_plugins` (plugin.py
lines 407-409): every top-level function of a loaded plugin file is written
into the dict, overwriting any same-named entry from an earlier file. -/
def registerDefs (result : List (String × PluginFunc)) (f : PyFile) :
    List (String × PluginFunc) :=
  f.defs.foldl (fun r kv => setKey r kv.1 kv.2) result

/-- `Project._load_plugins` (plugin.py lines 393-410). When the plugins
directory does not exist the function executes a bare `return`
(line 397), i.e. yields Python `None` — not an empty dict. When the
directory exists without an `__init__.py` it raises (lines 398-399; the
source message is "Plugins directory doesn't have a __init__.py file.").
Otherwise it loads every `.py` file in glob order and collects their
top-level functions into one flat dict, last write wins. -/
def load_plugins (fs : PluginDirState) :
    Except PyError (Option (List (String × PluginFunc))) :=
  if !fs.dir_exists then .ok none
  else if !fs.has_init_py then
    .error (.exception "Plugins directory lacks a __init__.py file.")
  else .ok (some (fs.py_files.foldl registerDefs []))

/-- `Project.get_plugin_function` (plugin.py lines 412-415). When
`self._plugins` is Python `None` (plugins directory absent), the membership
test `function_name not in self._plugins` itself raises
`TypeError: argument of type NoneType is not iterable`; otherwise an absent
name raises the descriptive lookup exception and a present name is
returned. -/
def Project.get_plugin_function (p : Project) (function_name : String) :
    Except PyError PluginFunc :=
  match p.plugins with
  | none => .error (.typeError "argument of type NoneType is not iterable")
  | some plgs =>
    match lookupKey plgs function_name with
    | none => .error (.exception ("Plugin function with name " ++ function_name ++ " not found"))
    | some f => .ok f

/-! ### Helper lemmas about the dict model -/

theorem lookupKey_setKey {α : Type} (l : List (String × α)) (k : String) (v : α) (k2 : String) :
    lookupKey (setKey l k v) k2 = if k2 = k then some v else lookupKey l k2 := by
  induction l with
  | nil =>
    by_cases h : k2 = k <;> simp_all [setKey, lookupKey, eq_comm]
  | cons kv rest ih =>
    by_cases hk : kv.1 = k <;> by_cases h2 : k2 = k <;> by_cases h3 : kv.1 = k2 <;>
      simp_all [setKey, lookupKey, eq_comm]

theorem lookupKey_setKey_self {α : Type} (l : List (String × α)) (k : String) (v : α) :
    lookupKey (setKey l k v) k = some v := by
  simp [lookupKey_setKey]

/-- All top-level function bindings of the plugin files, in load order. -/
def allDefsList : List PyFile → List (String × PluginFunc)
  | [] => []
  | f :: fs => f.defs ++ allDefsList fs

/-- The last binding of `k` in a list of bindings (later entries shadow
earlier ones), i.e. the value the final registry dict holds for `k`. -/
def lastBinding : List (String × PluginFunc) → String → Option PluginFunc
  | [], _ => none
  | kv :: bs, k =>
    match lastBinding bs k with
    | some v => some v
    | none => if kv.1 = k then some kv.2 else none

theorem foldl_setKey_lookup (bs : List (String × PluginFunc))
    (start : List (String × PluginFunc)) (k : String) :
    lookupKey (bs.foldl (fun r kv => setKey r kv.1 kv.2) start) k =
      match lastBinding bs k with
      | some v => some v
      | none => lookupKey start k := by
  induction bs generalizing start with
  | nil => rfl
  | cons kv bs ih =>
    simp only [List.foldl_cons, lastBinding]
    rw [ih]
    cases h : lastBinding bs k with
    | some v => rfl
    | none =>
      simp only []
      rw [lookupKey_setKey]
      by_cases h2 : kv.1 = k
      · simp [h2]
      · have : ¬ k = kv.1 := fun hh => h2 hh.symm
        simp [h2, this]

theorem foldl_registerDefs (files : List PyFile) (start : List (String × PluginFunc)) :
    files.foldl registerDefs start =
      (allDefsList files).foldl (fun r kv => setKey r kv.1 kv.2) start := by
  induction files generalizing start with
  | nil => rfl
  | cons f fs ih =>
    simp only [List.foldl_cons, allDefsList, List.foldl_append]
    rw [ih]
    rfl

/-- The property `get_resource`'s filter loop tests, stated extensionally:
the resource is of the requested type and every filter attribute exists on
it and equals the filter value. -/
def MatchesSpec (resource_type : String) (filter_args : List (String × Value))
    (r : Resource) : Prop :=
  r.is_type resource_type = true ∧
    ∀ av ∈ filter_args, lookupKey r.attrs av.1 = some av.2

instance (rt : String) (fa : List (String × Value)) (r : Resource) :
    Decidable (MatchesSpec rt fa r) := by
  unfold MatchesSpec
  infer_instance

theorem apply_filter_iff (fa : List (String × Value)) (r : Resource) :
    apply_filter fa r = true ↔ ∀ av ∈ fa, lookupKey r.attrs av.1 = some av.2 := by
  unfold apply_filter
  rw [List.all_eq_true]
  constructor
  · intro h av hav
    have hx := h av hav
    cases hl : lookupKey r.attrs av.1 with
    | none => rw [hl] at hx; exact absurd hx (by simp)
    | some v =>
      rw [hl] at hx
      simp only [beq_iff_eq] at hx
      rw [hx]
  · intro h av hav
    rw [h av hav]
    simp

theorem matchesSpec_iff (rt : String) (fa : List (String × Value)) (r : Resource) :
    (r.is_type rt && apply_filter fa r) = true ↔ MatchesSpec rt fa r := by
  rw [Bool.and_eq_true, apply_filter_iff]
  exact Iff.rfl

theorem get_resource_loop_cons (rt : String) (fa : List (String × Value))
    (r : Resource) (rest : List Resource) :
    get_resource_loop rt fa (r :: rest) =
      if MatchesSpec rt fa r then some r else get_resource_loop rt fa rest := by
  by_cases hm : MatchesSpec rt fa r
  · have h1 : r.is_type rt = true := hm.1
    have h2 : apply_filter fa r = true := (apply_filter_iff fa r).2 hm.2
    simp [get_resource_loop, h1, h2, hm]
  · rw [if_neg hm]
    cases h1 : r.is_type rt with
    | false => simp [get_resource_loop, h1]
    | true =>
      have h2 : apply_filter fa r = false :=
        Bool.eq_false_iff.2 (fun hh => hm ⟨h1, (apply_filter_iff fa r).1 hh⟩)
      simp [get_resource_loop, h1, h2]

theorem get_resource_loop_none_iff (rt : String) (fa : List (String × Value))
    (l : List Resource) :
    get_resource_loop rt fa l = none ↔ ∀ r ∈ l, ¬ MatchesSpec rt fa r := by
  induction l with
  | nil => simp [get_resource_loop]
  | cons r rest ih =>
    rw [get_resource_loop_cons]
    by_cases hm : MatchesSpec rt fa r
    · rw [if_pos hm]
      constructor
      · intro h; exact absurd h (by simp)
      · intro h; exact absurd hm (h r (by simp))
    · rw [if_neg hm, ih]
      constructor
      · intro h r2 hr2
        rcases List.mem_cons.1 hr2 with h3 | h3
        · exact h3 ▸ hm
        · exact h r2 h3
      · intro h r2 hr2; exact h r2 (List.mem_cons_of_mem _ hr2)

theorem get_resource_loop_some (rt : String) (fa : List (String × Value))
    (l : List Resource) (r : Resource) (h : get_resource_loop rt fa l = some r) :
    MatchesSpec rt fa r ∧
      ∃ pre post, l = pre ++ r :: post ∧ ∀ r2 ∈ pre, ¬ MatchesSpec rt fa r2 := by
  induction l with
  | nil => exact absurd h (by simp [get_resource_loop])
  | cons r0 rest ih =>
    rw [get_resource_loop_cons] at h
    by_cases hm : MatchesSpec rt fa r0
    · rw [if_pos hm] at h
      obtain rfl : r0 = r := Option.some.inj h
      exact ⟨hm, [], rest, rfl, by simp⟩
    · rw [if_neg hm] at h
      obtain ⟨hms, pre, post, hl, hpre⟩ := ih h
      refine ⟨hms, r0 :: pre, post, by rw [hl]; rfl, ?_⟩
      intro r2 hr2
      rcases List.mem_cons.1 hr2 with h3 | h3
      · exact h3 ▸ hm
      · exact hpre r2 h3

theorem get_handler_ok (env : Env) (res : Resource) (b : Bool) (core : ProviderCore)
    (h : env.get_provider (mockAgentFor b) res = .ok core) :
    Project.get_handler env res b =
      (.ok ⟨core, mockAgentFor b⟩, [Event.openVersion res.id.version]) := by
  unfold Project.get_handler
  rw [h]

theorem get_handler_err (env : Env) (res : Resource) (b : Bool) (e : PyError)
    (h : env.get_provider (mockAgentFor b) res = .error e) :
    Project.get_handler env res b = (.error e, [Event.openVersion res.id.version]) := by
  unfold Project.get_handler
  rw [h]

theorem deploy_err_provider (env : Env) (p : Project) (res : Resource) (dry b : Bool)
    (e : PyError) (h : env.get_provider (mockAgentFor b) res = .error e) :
    Project.deploy env p res dry b = (.error e, p, [Event.openVersion res.id.version]) := by
  unfold Project.deploy
  rw [get_handler_err env res b e h]

theorem deploy_ok_provider (env : Env) (p : Project) (res : Resource) (dry b : Bool)
    (core : ProviderCore) (h : env.get_provider (mockAgentFor b) res = .ok core) :
    Project.deploy env p res dry b =
      ((match env.finalize (env.execute ⟨core, mockAgentFor b⟩ res dry).ctx with
        | .error e => Except.error e
        | .ok _ => Except.ok (env.execute ⟨core, mockAgentFor b⟩ res dry).ctx),
       applyUploads p (env.execute ⟨core, mockAgentFor b⟩ res dry).uploads,
       [Event.openVersion res.id.version, Event.execute (mockAgentFor b).uri dry]) := by
  unfold Project.deploy
  rw [get_handler_ok env res b core h]
  dsimp only
  cases env.finalize (env.execute ⟨core, mockAgentFor b⟩ res dry).ctx <;> rfl

theorem deploy_trace (env : Env) (p : Project) (res : Resource) (dry b : Bool) :
    (Project.deploy env p res dry b).2.2 = [Event.openVersion res.id.version] ∨
    (Project.deploy env p res dry b).2.2 =
      [Event.openVersion res.id.version, Event.execute (mockAgentFor b).uri dry] := by
  cases h : env.get_provider (mockAgentFor b) res with
  | error e => left; rw [deploy_err_provider env p res dry b e h]
  | ok core =>
    right
    rw [deploy_ok_provider env p res dry b core h]

theorem deploy_trace_ok (env : Env) (p : Project) (res : Resource) (dry b : Bool)
    (core : ProviderCore) (h : env.get_provider (mockAgentFor b) res = .ok core) :
    Event.execute (mockAgentFor b).uri dry ∈ (Project.deploy env p res dry b).2.2 := by
  rw [deploy_ok_provider env p res dry b core h]
  simp

theorem deploy_resource_trace (env : Env) (p : Project) (rt : String)
    (status : ResourceState) (rar : Bool) (fa : List (String × Value)) (res : Resource)
    (hres : Project.get_resource p rt fa = some res) :
    (Project.deploy_resource env p rt status rar fa).2.2 =
      (Project.deploy env p res rar false).2.2 := by
  unfold Project.deploy_resource
  rw [hres]
  dsimp only
  cases hD : Project.deploy env p res rar false with
  | mk r1 rest =>
    cases rest with
    | mk p2 tr =>
      cases r1 with
      | error e => rfl
      | ok ctx =>
        dsimp only
        by_cases hs : ctx.status = status
        · rw [if_pos hs]
          cases env.finalize ctx <;> rfl
        · rw [if_neg hs]

/-! ### Sample fixtures used by the witness theorems -/

def sampleEnv : Env :=
  { get_provider := fun _ _ => .ok ⟨7⟩
    execute := fun _ _ d =>
      ⟨⟨if d then ResourceState.dry else ResourceState.deployed, [], []⟩, []⟩
    finalize := fun _ => .ok () }

def sampleRes : Resource := ⟨⟨5⟩, "testmodule::Resource", [("name", 1)]⟩

def resWrongType : Resource := ⟨⟨5⟩, "other::Type", [("name", 1)]⟩

def emptyProject : Project :=
  { test_project_dir := "/tmp/p"
    stdout_cap := none
    stderr_cap := none
    types := none
    version := none
    resources := []
    exporter := none
    blobs := []
    facts := []
    plugins := some []
    capsys := none }

def sampleDeployProject : Project := { emptyProject with resources := [sampleRes] }

def sampleFilterProject : Project :=
  { emptyProject with resources := [resWrongType, sampleRes] }

def sampleBlobProject : Project := { emptyProject with blobs := [("k", "old")] }

def noPluginProject : Project := { emptyProject with plugins := none }

def absentPluginDir : PluginDirState := ⟨false, false, []⟩

def initlessPluginDir : PluginDirState := ⟨true, false, []⟩

def pyFileA : PyFile := ⟨"a.py", [("dup", ⟨1⟩), ("solo", ⟨2⟩)]⟩

def pyFileB : PyFile := ⟨"b.py", [("dup", ⟨3⟩)]⟩

def samplePluginDir : PluginDirState := ⟨true, true, [pyFileA, pyFileB]⟩

def sampleRegistry : List (String × PluginFunc) := [("dup", ⟨3⟩), ("solo", ⟨2⟩)]

def samplePluginProject : Project := { emptyProject with plugins := some sampleRegistry }

/-! ### Claim theorems -/

/-- C1: whenever `deploy_resource` finds a matching resource, the
`run_as_root` argument is forwarded positionally into `deploy`'s `dry_run`
parameter while `deploy`'s own `run_as_root` stays `False`; so the handler
execution recorded in the trace always happens against the `"local:"`
MockAgent with `dry_run` equal to `run_as_root`, and when provider
resolution succeeds such an execution does happen. -/
theorem deploy_resource_dry_run_is_run_as_root (env : Env) (p : Project) (rt : String)
    (status : ResourceState) (rar : Bool) (fa : List (String × Value)) (res : Resource)
    (hres : Project.get_resource p rt fa = some res) :
    (∀ u d, Event.execute u d ∈ (Project.deploy_resource env p rt status rar fa).2.2 →
        u = "local:" ∧ d = rar) ∧
    (∀ core, env.get_provider (mockAgentFor false) res = .ok core →
        Event.execute "local:" rar ∈ (Project.deploy_resource env p rt status rar fa).2.2) := by
  have htr := deploy_resource_trace env p rt status rar fa res hres
  constructor
  · intro u d hmem
    rw [htr] at hmem
    rcases deploy_trace env p res rar false with h | h
    · rw [h] at hmem
      simp at hmem
    · rw [h] at hmem
      simp only [mockAgentFor, if_neg, Bool.false_eq_true, ite_false] at hmem
      simp at hmem
      exact ⟨hmem.1, hmem.2⟩
  · intro core hcore
    rw [htr]
    have hm := deploy_trace_ok env p res rar false core hcore
    simpa [mockAgentFor] using hm

/-- C1 witness: a concrete call where `run_as_root := true` produces a
handler execution against `"local:"` with `dry_run = true`. -/
theorem deploy_resource_dry_run_is_run_as_root_witness :
    Event.execute "local:" true ∈
      (Project.deploy_resource sampleEnv sampleDeployProject "testmodule::Resource"
        ResourceState.deployed true []).2.2 :=
  (deploy_resource_dry_run_is_run_as_root sampleEnv sampleDeployProject
      "testmodule::Resource" ResourceState.deployed true [] sampleRes rfl).2 ⟨7⟩ rfl

/-- C3: after `init(capsys)` the compile/deploy state is fully reset --
`types` and `version` are `None`, and the resources, blob and fact stores
are empty -- for every prior Project state, hence regardless of the
`compile`, `add_fact` or `add_blob` calls that preceded it. -/
theorem init_resets_state (p : Project) (cs : Capsys) :
    (p.init cs).types = none ∧ (p.init cs).version = none ∧
    (p.init cs).resources = [] ∧ (p.init cs).blobs = [] ∧ (p.init cs).facts = [] :=
  ⟨rfl, rfl, rfl, rfl, rfl⟩

/-- C4: `get_resource` returns the first resource in iteration order that is
of the requested type and on which every filter attribute exists and equals
the filter value (`MatchesSpec`); resources lacking a filter attribute fail
`MatchesSpec` and are excluded; it returns `None` exactly when no resource
matches. -/
theorem get_resource_first_match (p : Project) (rt : String)
    (fa : List (String × Value)) :
    (Project.get_resource p rt fa = none ↔ ∀ r ∈ p.resources, ¬ MatchesSpec rt fa r) ∧
    ∀ r, Project.get_resource p rt fa = some r →
      MatchesSpec rt fa r ∧
        ∃ pre post, p.resources = pre ++ r :: post ∧
          ∀ r2 ∈ pre, ¬ MatchesSpec rt fa r2 :=
  ⟨get_resource_loop_none_iff rt fa p.resources,
   fun r h => get_resource_loop_some rt fa p.resources r h⟩

/-- C4 witness: on a store holding a wrong-typed resource before a matching
one, `get_resource` skips the former and returns the latter. -/
theorem get_resource_first_match_witness :
    MatchesSpec "testmodule::Resource" [("name", 1)] sampleRes ∧
      ∃ pre post, sampleFilterProject.resources = pre ++ sampleRes :: post ∧
        ∀ r2 ∈ pre, ¬ MatchesSpec "testmodule::Resource" [("name", 1)] r2 :=
  (get_resource_first_match sampleFilterProject "testmodule::Resource"
    [("name", 1)]).2 sampleRes rfl

/-- C5: when the type name and filters match zero resources, both
`deploy_resource` and `dryrun_resource` fail with the assertion error from
line 289/308 before any handler is resolved or executed: the returned
Project state is the unchanged input state and the event trace is empty. -/
theorem deploy_resource_no_match_raises (env : Env) (p : Project) (rt : String)
    (status : ResourceState) (rar : Bool) (fa : List (String × Value))
    (h : Project.get_resource p rt fa = none) :
    Project.deploy_resource env p rt status rar fa =
      (.error (.assertionError "No resource found of given type and filter args"), p, []) ∧
    Project.dryrun_resource env p rt status rar fa =
      (.error (.assertionError "No resource found of given type and filter args"), p, []) := by
  unfold Project.deploy_resource Project.dryrun_resource
  rw [h]
  exact ⟨rfl, rfl⟩

/-- C5 witness: on a Project with no resources the call fails with the
assertion error, unchanged state and empty trace. -/
theorem deploy_resource_no_match_raises_witness :
    Project.deploy_resource sampleEnv emptyProject "t" ResourceState.deployed false [] =
      (.error (.assertionError "No resource found of given type and filter args"),
        emptyProject, []) :=
  (deploy_resource_no_match_raises sampleEnv emptyProject "t"
    ResourceState.deployed false [] rfl).1

/-- C6 counterexample: with key `"k"` already stored, the plain two-argument
call `add_blob("k", "new")` -- no explicit overwrite permission passed, so
the Python default `allow_overwrite=True` applies -- does NOT raise: it
succeeds and replaces the stored payload, contradicting the claim that
add_blob raises unless the caller explicitly allows overwriting. -/
theorem add_blob_default_overwrite_cex :
    containsKey sampleBlobProject.blobs "k" = true ∧
    Project.add_blob_default sampleBlobProject "k" "new" =
      .ok { sampleBlobProject with blobs := [("k", "new")] } ∧
    Project.get_blob { sampleBlobProject with blobs := [("k", "new")] } "k" = some "new" :=
  ⟨rfl, rfl, rfl⟩

/-- C6 (amended): `add_blob(key, content, allow_overwrite)` raises, leaving
the store untouched, only when the key is present AND the caller explicitly
passed `allow_overwrite=False`; with the default `allow_overwrite=True` the
write always succeeds (overwriting a present key), and an absent key is
stored even with `allow_overwrite=False`. -/
theorem add_blob_overwrite_spec (p : Project) (key content : String) :
    (containsKey p.blobs key = true →
      Project.add_blob p key content false =
        .error (.exception ("Key " ++ key ++ " already stored in blobs"))) ∧
    Project.add_blob_default p key content =
      .ok { p with blobs := setKey p.blobs key content } ∧
    (containsKey p.blobs key = false →
      Project.add_blob p key content false =
        .ok { p with blobs := setKey p.blobs key content }) ∧
    ∀ q, Project.add_blob_default p key content = .ok q →
      lookupKey q.blobs key = some content := by
  refine ⟨?_, ?_, ?_, ?_⟩
  · intro h
    unfold Project.add_blob
    rw [h]
    rfl
  · unfold Project.add_blob_default Project.add_blob
    simp
  · intro h
    unfold Project.add_blob
    rw [h]
    rfl
  · intro q hq
    have hq2 : Except.ok (ε := PyError) { p with blobs := setKey p.blobs key content } =
        .ok q := by
      rw [← hq]
      unfold Project.add_blob_default Project.add_blob
      simp
    have : q = { p with blobs := setKey p.blobs key content } := (Except.ok.inj hq2).symm
    rw [this]
    exact lookupKey_setKey_self p.blobs key content

/-- C6 witness: concrete applications of the amended claim -- an explicit
`allow_overwrite=False` on a present key raises, and a default-permission
write leaves the new content retrievable under the key. -/
theorem add_blob_overwrite_spec_witness :
    Project.add_blob sampleBlobProject "k" "x" false =
      .error (.exception ("Key " ++ "k" ++ " already stored in blobs")) ∧
    lookupKey (setKey sampleBlobProject.blobs "k" "x") "k" = some "x" := by
  constructor
  · exact (add_blob_overwrite_spec sampleBlobProject "k" "x").1 rfl
  · exact (add_blob_overwrite_spec sampleBlobProject "k" "x").2.2.2
      { sampleBlobProject with blobs := setKey sampleBlobProject.blobs "k" "x" } rfl

/-- C2 counterexample: when the plugins directory is absent, `_load_plugins`
yields `None` (a bare `return`), which is not the empty registry, and a
subsequent `get_plugin_function` call fails with a `TypeError` from the
`in None` membership test -- not with the descriptive lookup error the
claim promises. -/
theorem load_plugins_absent_dir_cex :
    load_plugins absentPluginDir = .ok none ∧
    (Except.ok none : Except PyError (Option (List (String × PluginFunc)))) ≠
      .ok (some []) ∧
    Project.get_plugin_function noPluginProject "myfunc" =
      .error (.typeError "argument of type NoneType is not iterable") := by
  refine ⟨rfl, ?_, rfl⟩
  intro h
  exact Option.noConfusion (Except.ok.inj h)

/-- C2 (amended): when the plugins directory does not exist the loader
yields `None` (no registry at all), and every subsequent
`get_plugin_function` lookup on such a Project fails with a type error
(`in None` is not a valid membership test); when the directory exists but
lacks its `__init__.py` package marker the loader raises a descriptive
exception. -/
theorem plugin_loader_absent_dir_spec (fs : PluginDirState) (p : Project) (name : String) :
    (fs.dir_exists = false → load_plugins fs = .ok none) ∧
    (p.plugins = none →
      Project.get_plugin_function p name =
        .error (.typeError "argument of type NoneType is not iterable")) ∧
    (fs.dir_exists = true → fs.has_init_py = false →
      load_plugins fs =
        .error (.exception "Plugins directory lacks a __init__.py file.")) := by
  refine ⟨?_, ?_, ?_⟩
  · intro h
    unfold load_plugins
    rw [h]
    rfl
  · intro h
    unfold Project.get_plugin_function
    rw [h]
  · intro h1 h2
    unfold load_plugins
    rw [h1, h2]
    rfl

/-- C2 witness: concrete applications of the amended claim at an absent
directory, a registry-less Project, and a marker-less directory. -/
theorem plugin_loader_absent_dir_spec_witness :
    load_plugins absentPluginDir = Except.ok none ∧
    Project.get_plugin_function noPluginProject "f" =
      .error (.typeError "argument of type NoneType is not iterable") ∧
    load_plugins initlessPluginDir =
      .error (.exception "Plugins directory lacks a __init__.py file.") :=
  ⟨(plugin_loader_absent_dir_spec absentPluginDir noPluginProject "f").1 rfl,
   (plugin_loader_absent_dir_spec absentPluginDir noPluginProject "f").2.1 rfl,
   (plugin_loader_absent_dir_spec initlessPluginDir noPluginProject "f").2.2 rfl rfl⟩

/-- C8: `get_handler` never reaches the `c.close_version` call on line 239:
on success it returns the provider from inside the `try`, on failure the
`except` clause re-raises, so no `closeVersion` event ever appears in its
trace for any environment, resource or `run_as_root` flag. -/
theorem get_handler_never_closes_version (env : Env) (r : Resource) (b : Bool) (v : Nat) :
    Event.closeVersion v ∉ (Project.get_handler env r b).2 := by
  unfold Project.get_handler
  cases env.get_provider (mockAgentFor b) r <;> simp

/-- C10: `dryrun(resource, run_as_root)` is exactly
`deploy(resource, dry_run=True, run_as_root)`: the full result --
returned context, resulting Project state and event trace -- coincides. -/
theorem dryrun_eq_deploy_dry_run (env : Env) (p : Project) (r : Resource) (b : Bool) :
    Project.dryrun env p r b = Project.deploy env p r true b := rfl

/-- C7: over the registry `_load_plugins` builds, `get_plugin_function`
raises an exception whose message names the missing function when the name
has no binding in any plugin file, and returns the last binding in load
order -- the later-loaded file's definition, with no duplicate detection --
when the name is bound (in particular when two files define it). -/
theorem get_plugin_function_registry_spec (fs : PluginDirState) (p : Project)
    (reg : List (String × PluginFunc)) (name : String)
    (hload : load_plugins fs = .ok (some reg)) (hp : p.plugins = some reg) :
    (lastBinding (allDefsList fs.py_files) name = none →
      Project.get_plugin_function p name =
        .error (.exception ("Plugin function with name " ++ name ++ " not found"))) ∧
    ∀ v, lastBinding (allDefsList fs.py_files) name = some v →
      Project.get_plugin_function p name = .ok v := by
  have hreg : reg = fs.py_files.foldl registerDefs [] := by
    unfold load_plugins at hload
    cases hd : fs.dir_exists with
    | false => rw [hd] at hload; simp at hload
    | true =>
      cases hi : fs.has_init_py with
      | false => rw [hd, hi] at hload; simp at hload
      | true =>
        rw [hd, hi] at hload
        simp at hload
        exact hload.symm
  have hlook : lookupKey reg name =
      match lastBinding (allDefsList fs.py_files) name with
      | some v => some v
      | none => none := by
    rw [hreg, foldl_registerDefs, foldl_setKey_lookup]
    cases lastBinding (allDefsList fs.py_files) name <;> rfl
  constructor
  · intro hnone
    rw [hnone] at hlook
    unfold Project.get_plugin_function
    rw [hp]
    dsimp only
    rw [hlook]
  · intro v hv
    rw [hv] at hlook
    unfold Project.get_plugin_function
    rw [hp]
    dsimp only
    rw [hlook]

/-- C7 witness: with `a.py` and the later-loaded `b.py` both defining
`dup`, lookup returns the `b.py` definition, and an undefined name fails
with the error message naming it. -/
theorem get_plugin_function_registry_spec_witness :
    Project.get_plugin_function samplePluginProject "dup" = .ok ⟨3⟩ ∧
    Project.get_plugin_function samplePluginProject "nosuch" =
      .error (.exception ("Plugin function with name " ++ "nosuch" ++ " not found")) :=
  ⟨(get_plugin_function_registry_spec samplePluginDir samplePluginProject
      sampleRegistry "dup" rfl rfl).2 ⟨3⟩ rfl,
   (get_plugin_function_registry_spec samplePluginDir samplePluginProject
      sampleRegistry "nosuch" rfl rfl).1 rfl⟩

/-- C9: when `deploy_resource` returns successfully it returns exactly the
resource `get_resource` matched; `dryrun_resource` ignores its `status`
parameter entirely, asserts the context status against the fixed
`ResourceState.dry` sentinel, and on success returns the context's
change-set. -/
theorem deploy_dryrun_resource_results (env : Env) (p : Project) (rt : String)
    (status status2 : ResourceState) (rar : Bool) (fa : List (String × Value)) :
    (∀ r p2 tr, Project.deploy_resource env p rt status rar fa = (.ok r, p2, tr) →
        Project.get_resource p rt fa = some r) ∧
    Project.dryrun_resource env p rt status rar fa =
      Project.dryrun_resource env p rt status2 rar fa ∧
    ∀ res ctx p2 tr, Project.get_resource p rt fa = some res →
      Project.dryrun env p res rar = (.ok ctx, p2, tr) →
      Project.dryrun_resource env p rt status rar fa =
        ((if ctx.status = ResourceState.dry then .ok ctx.changes
          else .error (.assertionError "ctx.status == const.ResourceState.dry")), p2, tr) := by
  refine ⟨?_, rfl, ?_⟩
  · intro r p2 tr h
    cases hres : Project.get_resource p rt fa with
    | none =>
      unfold Project.deploy_resource at h
      rw [hres] at h
      simp at h
    | some res =>
      unfold Project.deploy_resource at h
      rw [hres] at h
      dsimp only at h
      cases hD : Project.deploy env p res rar false with
      | mk r1 rest =>
        cases rest with
        | mk p2x trx =>
          rw [hD] at h
          cases r1 with
          | error e => simp at h
          | ok ctx =>
            dsimp only at h
            by_cases hs : ctx.status = status
            · rw [if_pos hs] at h
              cases hf : env.finalize ctx with
              | error e => rw [hf] at h; simp at h
              | ok u =>
                rw [hf] at h
                dsimp only at h
                have hrr : res = r := by
                  have := congrArg (fun t => t.1) h
                  simpa using this
                exact congrArg some hrr
            · rw [if_neg hs] at h
              simp at h
  · intro res ctx p2 tr hres hdry
    unfold Project.dryrun_resource
    rw [hres]
    dsimp only
    rw [hdry]
    dsimp only
    by_cases hs : ctx.status = ResourceState.dry
    · rw [if_pos hs, if_pos hs]
    · rw [if_neg hs, if_neg hs]

/-- C9 witness: a concrete deploy returning the matched resource, and a
concrete dryrun whose `status` argument is the (unused) deployed default
and which returns the empty change-set of its dry context. -/
theorem deploy_dryrun_resource_results_witness :
    Project.get_resource sampleDeployProject "testmodule::Resource" [] = some sampleRes ∧
    Project.dryrun_resource sampleEnv sampleDeployProject "testmodule::Resource"
        ResourceState.deployed false [] =
      (.ok [], sampleDeployProject,
        [Event.openVersion 5, Event.execute "local:" true]) := by
  constructor
  · exact (deploy_dryrun_resource_results sampleEnv sampleDeployProject
      "testmodule::Resource" ResourceState.deployed ResourceState.failed false []).1
      sampleRes sampleDeployProject
      [Event.openVersion 5, Event.execute "local:" false] rfl
  · have happ := (deploy_dryrun_resource_results sampleEnv sampleDeployProject
      "testmodule::Resource" ResourceState.deployed ResourceState.failed false []).2.2
      sampleRes ⟨ResourceState.dry, [], []⟩ sampleDeployProject
      [Event.openVersion 5, Event.execute "local:" true] rfl rfl
    simpa using happ

end PytestInmanta
